import Mathlib

/-!
# Verification of the gemini-playground session orchestrator (`src/static/js/main.js`)

A shallow embedding of the session-orchestration layer of `main.js`:
the mutable module state (`isRecording`, `audioStreamer`, `isConnected`,
`audioRecorder`, `isVideoActive`, `videoManager`, `isScreenSharing`,
`screenRecorder`, `isUsingTool`), the UI-driven handlers
(`handleMicToggle`, `handleVideoToggle`, `stopVideo`, `handleScreenShare`,
`stopScreenSharing`, `connectToWebsocket`, `disconnectFromWebsocket`,
`handleSendMessage`) and the transport event handlers registered with
`client.on(...)` (`content`, `interrupted`, `turncomplete`, `audio`, and the
purely logging ones).

Side effects that cross the component boundary (calls into the transport,
`localStorage` writes, UI log entries) are reified as an `Action` list
returned next to the successor state.  Producer instances (`AudioRecorder`,
`VideoManager`, `ScreenRecorder`) are identified by freshly allocated
numeric ids; a ghost list of "live" producer ids per kind records which
producers have been started successfully and not yet stopped, updated
exactly at the source's `start`/`stop` call sites.
-/

namespace GeminiPlayground

/-- Modelled from the spec: the Playback Sink (`AudioStreamer`, whose file
`audio/audio-streamer.js` is not part of the sources given): `addPCM16`
appends a chunk to an internal ordered play queue (playback running),
`stop` immediately halts playback and discards the queue. -/
structure SinkState where
  queue : List (List Nat)
  playing : Bool
deriving DecidableEq, Repr

/-- The sink right after `stop()`: queue discarded, playback halted. -/
def stoppedSink : SinkState := { queue := [], playing := false }

/-- One element of `modelTurn.parts` of a `content` event.  In the source a
part is a JS object; only the presence of its `text`, `functionCall` and
`functionResponse` fields is observed by `main.js`. -/
structure Part where
  text : Option String
  functionCall : Bool
  functionResponse : Bool
deriving DecidableEq, Repr

/-- `data.modelTurn.parts.some(part => part.functionCall)` -/
def hasFunctionCall (parts : List Part) : Bool :=
  parts.any (fun p => p.functionCall)

/-- `data.modelTurn.parts.some(part => part.functionResponse)` -/
def hasFunctionResponse (parts : List Part) : Bool :=
  parts.any (fun p => p.functionResponse)

/-- `data.modelTurn.parts.map(part => part.text).join('')`; JS `join`
turns an `undefined` element into the empty string. -/
def joinTexts (parts : List Part) : String :=
  String.join (parts.map (fun p => p.text.getD ""))

/-- One realtime-input chunk as passed to `client.sendRealtimeInput`. -/
structure Chunk where
  mimeType : String
  data : String
  interrupt : Option Bool
deriving DecidableEq, Repr

/-- An observable side effect of a handler: a call into the transport, a
`localStorage` write, or a UI log line (`logMessage(msg, kind)`); `notify`
with kind `"ai"` is the surfaced text notification.  `rejectError` stands
for the handler rejecting/throwing a typed error; no code path of
`main.js` produces it. -/
inductive Action
  | sendRealtime (chunks : List Chunk)
  | sendText (t : String)
  | notify (msg : String) (kind : String)
  | logInfo (msg : String)
  | storeSet (key : String) (val : String)
  | connectAttempt
  | clientDisconnect
  | rejectError (name : String)
deriving DecidableEq, Repr

/-- The text notifications (UI log entries of kind `"ai"`) among a list of
emitted actions. -/
def aiNotifications (acts : List Action) : List String :=
  acts.filterMap (fun a =>
    match a with
    | Action.notify m k => if k = "ai" then some m else none
    | _ => none)

/-- The chunks passed to `client.sendRealtimeInput` among a list of
emitted actions, in emission order. -/
def chunksSent (acts : List Action) : List Chunk :=
  acts.foldr (fun a r =>
    match a with
    | Action.sendRealtime cs => cs ++ r
    | _ => r) []

/-- The module-level mutable state of `main.js` (plus the current values
of the relevant input fields, and the ghost `nextId`/`liveVideo`/
`liveScreen` bookkeeping for producer instances). -/
structure AppState where
  isRecording : Bool
  audioStreamer : Option SinkState
  isConnected : Bool
  audioRecorder : Option Nat
  isVideoActive : Bool
  videoManager : Option Nat
  isScreenSharing : Bool
  screenRecorder : Option Nat
  isUsingTool : Bool
  messageInput : String
  apiKeyInput : String
  voiceSelect : String
  languageSelect : String
  systemInstruction : String
  fpsInput : String
  nextId : Nat
  liveVideo : List Nat
  liveScreen : List Nat
deriving DecidableEq, Repr

/-- The state at module load: every flag false, every reference null. -/
def initState : AppState where
  isRecording := false
  audioStreamer := none
  isConnected := false
  audioRecorder := none
  isVideoActive := false
  videoManager := none
  isScreenSharing := false
  screenRecorder := none
  isUsingTool := false
  messageInput := ""
  apiKeyInput := ""
  voiceSelect := "Aoede"
  languageSelect := "en-US"
  systemInstruction := ""
  fpsInput := "1"
  nextId := 0
  liveVideo := []
  liveScreen := []

/-- The chunk built by the microphone data callback inside
`handleMicToggle`: mime `audio/pcm;rate=16000`, with `interrupt: true`
exactly on the tool-use branch. -/
def micChunk (tool : Bool) (base64Data : String) : Chunk :=
  if tool then
    { mimeType := "audio/pcm;rate=16000", data := base64Data, interrupt := some true }
  else
    { mimeType := "audio/pcm;rate=16000", data := base64Data, interrupt := none }

/-- The microphone data callback (`handleMicToggle`, the closure passed to
`audioRecorder.start`): sends one realtime chunk unconditionally, reading
only `isUsingTool` from the ambient state. -/
def micCallbackActions (s : AppState) (base64Data : String) : List Action :=
  if s.isUsingTool then
    [Action.sendRealtime
      [{ mimeType := "audio/pcm;rate=16000", data := base64Data, interrupt := some true }]]
  else
    [Action.sendRealtime
      [{ mimeType := "audio/pcm;rate=16000", data := base64Data, interrupt := none }]]

/-- The camera frame callback (`handleVideoToggle`, the closure passed to
`videoManager.start`): forwards the ready-made frame chunk only while
`isConnected`. -/
def videoCallbackActions (s : AppState) (frameData : Chunk) : List Action :=
  if s.isConnected then [Action.sendRealtime [frameData]] else []

/-- The screen frame callback (`handleScreenShare`, the closure passed to
`screenRecorder.start`): wraps the frame as `image/jpeg` and sends it only
while `isConnected`. -/
def screenCallbackActions (s : AppState) (frameData : String) : List Action :=
  if s.isConnected then
    [Action.sendRealtime [{ mimeType := "image/jpeg", data := frameData, interrupt := none }]]
  else []

/-- An inbound event raised by the transport and handled by the
`client.on(...)` registrations of `main.js`.  A `content` event carries
`data.modelTurn` when present (`none` models a payload without a
`modelTurn` field); an `audio` event carries the PCM bytes. -/
inductive InboundEvent
  | content (modelTurn : Option (List Part))
  | interrupted
  | turnComplete
  | audio (chunk : List Nat)
  | setupComplete
  | openEvent
  | closeEvent (code : Nat)
  | errorEvent (msg : String)
deriving DecidableEq, Repr

/-- The `client.on('content')` handler: with a `modelTurn`, set
`isUsingTool` on a functionCall part, else clear it on a functionResponse
part; then join the part texts and surface them as one `"ai"` log entry
when non-empty. -/
def contentHandler (s : AppState) (modelTurn : Option (List Part)) :
    AppState × List Action :=
  match modelTurn with
  | none => (s, [])
  | some parts =>
    let s1 :=
      if hasFunctionCall parts then { s with isUsingTool := true }
      else if hasFunctionResponse parts then { s with isUsingTool := false }
      else s
    let toolActs :=
      if hasFunctionCall parts then [Action.logInfo "Model is using a tool"]
      else if hasFunctionResponse parts then [Action.logInfo "Tool usage completed"]
      else []
    let text := joinTexts parts
    (s1, toolActs ++ (if text = "" then [] else [Action.notify text "ai"]))

/-- Dispatch of one inbound event to its registered handler.
`interrupted` does `audioStreamer?.stop(); isUsingTool = false`;
`turncomplete` does `isUsingTool = false`; `audio` runs
`ensureAudioInitialized` (creating the sink when absent) and then
`addPCM16`; the remaining events only log. -/
def eventStep (s : AppState) (e : InboundEvent) : AppState × List Action :=
  match e with
  | InboundEvent.content modelTurn => contentHandler s modelTurn
  | InboundEvent.interrupted =>
    ({ s with audioStreamer := s.audioStreamer.map (fun _ => stoppedSink),
              isUsingTool := false },
     [Action.logInfo "Model interrupted", Action.notify "Model interrupted" "system"])
  | InboundEvent.turnComplete =>
    ({ s with isUsingTool := false }, [Action.notify "Turn complete" "system"])
  | InboundEvent.audio chunk =>
    (match s.audioStreamer with
     | none => { s with audioStreamer := some { queue := [chunk], playing := true } }
     | some k => { s with audioStreamer := some { queue := k.queue ++ [chunk], playing := true } },
     [])
  | InboundEvent.setupComplete => (s, [Action.notify "Setup complete" "system"])
  | InboundEvent.openEvent => (s, [Action.notify "WebSocket connection opened" "system"])
  | InboundEvent.closeEvent _ => (s, [Action.notify "WebSocket connection closed" "system"])
  | InboundEvent.errorEvent m => (s, [Action.notify m "system"])

/-- `handleMicToggle`.  `startOk` is whether device acquisition and
`audioRecorder.start` succeed.  The start branch first runs
`ensureAudioInitialized` (keeping an existing streamer, else creating
one), allocates a fresh `AudioRecorder`, and on success resumes the
streamer and sets `isRecording`; the catch branch only clears
`isRecording`.  The stop branch stops the recorder (keeping the
reference) and clears `isRecording`. -/
def handleMicToggle (s : AppState) (startOk : Bool) : AppState × List Action :=
  if s.isRecording = false then
    let streamer := s.audioStreamer.getD { queue := [], playing := false }
    let rid := s.nextId
    let s2 := { s with audioStreamer := some streamer, audioRecorder := some rid,
                       nextId := s.nextId + 1 }
    if startOk then
      ({ s2 with audioStreamer := some { streamer with playing := true },
                 isRecording := true },
       [Action.logInfo "Microphone started", Action.notify "Microphone started" "system"])
    else
      ({ s2 with isRecording := false }, [Action.notify "Error: mic" "system"])
  else
    ({ s with isRecording := false }, [Action.notify "Microphone stopped" "system"])

/-- `stopVideo`: stop the video manager when present (removing it from
the live set), null the reference (a no-op when it already is null) and
clear `isVideoActive`. -/
def stopVideo (s : AppState) : AppState × List Action :=
  ({ s with
      videoManager := none,
      isVideoActive := false,
      liveVideo :=
        match s.videoManager with
        | some vid => s.liveVideo.filter (fun x => x != vid)
        | none => s.liveVideo },
   [Action.notify "Camera stopped" "system"])

/-- `handleVideoToggle`.  Always stores `video_fps`.  The start branch
reuses an existing `videoManager` instance or allocates a fresh one, then
awaits `videoManager.start`; on failure the catch branch nulls
`videoManager` and clears `isVideoActive`.  The stop branch is
`stopVideo`. -/
def handleVideoToggle (s : AppState) (startOk : Bool) : AppState × List Action :=
  let store := Action.storeSet "video_fps" s.fpsInput
  if s.isVideoActive = false then
    let vid := s.videoManager.getD s.nextId
    let nid := if s.videoManager.isSome then s.nextId else s.nextId + 1
    if startOk then
      ({ s with videoManager := some vid, isVideoActive := true,
                liveVideo := s.liveVideo ++ [vid], nextId := nid },
       [store, Action.logInfo "Camera started successfully",
        Action.notify "Camera started" "system"])
    else
      ({ s with videoManager := none, isVideoActive := false, nextId := nid },
       [store, Action.notify "Error: camera" "system"])
  else
    let r := stopVideo s
    (r.1, store :: r.2)

/-- `stopScreenSharing`: stop and null the screen recorder when present,
clear `isScreenSharing`. -/
def stopScreenSharing (s : AppState) : AppState × List Action :=
  ({ s with
      screenRecorder := none,
      isScreenSharing := false,
      liveScreen :=
        match s.screenRecorder with
        | some sid => s.liveScreen.filter (fun x => x != sid)
        | none => s.liveScreen },
   [Action.notify "Screen sharing stopped" "system"])

/-- `handleScreenShare`.  The start branch always allocates a fresh
`ScreenRecorder` and awaits its `start`; the catch branch clears
`isScreenSharing` but keeps the (never-started) recorder reference.  The
stop branch is `stopScreenSharing`. -/
def handleScreenShare (s : AppState) (startOk : Bool) : AppState × List Action :=
  if s.isScreenSharing = false then
    let sid := s.nextId
    if startOk then
      ({ s with screenRecorder := some sid, isScreenSharing := true,
                liveScreen := s.liveScreen ++ [sid], nextId := s.nextId + 1 },
       [Action.logInfo "Screen sharing started",
        Action.notify "Screen sharing started" "system"])
    else
      ({ s with screenRecorder := some sid, isScreenSharing := false,
                nextId := s.nextId + 1 },
       [Action.notify "Error: screen" "system"])
  else
    stopScreenSharing s

/-- `connectToWebsocket`.  An empty API key only logs and returns; a
non-empty key persists the four configuration values, attempts
`client.connect` (`connectOk` is whether it resolves), and sets
`isConnected` accordingly. -/
def connectToWebsocket (s : AppState) (connectOk : Bool) : AppState × List Action :=
  if s.apiKeyInput = "" then
    (s, [Action.notify "Please input API Key" "system"])
  else
    let stores :=
      [Action.storeSet "gemini_api_key" s.apiKeyInput,
       Action.storeSet "gemini_voice" s.voiceSelect,
       Action.storeSet "gemini_language" s.languageSelect,
       Action.storeSet "system_instruction" s.systemInstruction,
       Action.connectAttempt]
    if connectOk then
      ({ s with isConnected := true },
       stores ++ [Action.notify "Connected to Gemini Multimodal Live API" "system"])
    else
      ({ s with isConnected := false },
       stores ++ [Action.notify "Connection error" "system"])

/-- `disconnectFromWebsocket`: `client.disconnect()`, clear `isConnected`;
when a streamer exists, stop it, stop and null the recorder when present,
and clear `isRecording`; finally `stopVideo` when a video manager exists
and `stopScreenSharing` when a screen recorder exists. -/
def disconnectFromWebsocket (s : AppState) : AppState × List Action :=
  let s2 :=
    { s with
        isConnected := false,
        audioStreamer := s.audioStreamer.map (fun _ => stoppedSink),
        audioRecorder := if s.audioStreamer.isSome then none else s.audioRecorder,
        isRecording := if s.audioStreamer.isSome then false else s.isRecording }
  let r3 := if s2.videoManager.isSome then stopVideo s2 else (s2, [])
  let r4 := if r3.1.screenRecorder.isSome then stopScreenSharing r3.1 else (r3.1, [])
  (r4.1,
   Action.clientDisconnect :: Action.notify "Disconnected from server" "system"
     :: (r3.2 ++ r4.2))

/-- JS `String.prototype.trim`: strip whitespace characters from both
ends of the string. -/
def jsTrim (s : String) : String :=
  ⟨((s.data.dropWhile Char.isWhitespace).reverse.dropWhile Char.isWhitespace).reverse⟩

/-- `handleSendMessage`: trim the input field; when non-empty, log it as a
user entry, send it as a text turn and clear the field; otherwise do
nothing. -/
def handleSendMessage (s : AppState) : AppState × List Action :=
  let message := jsTrim s.messageInput
  if message = "" then (s, [])
  else
    ({ s with messageInput := "" },
     [Action.notify message "user", Action.sendText message])

/-- One UI interaction or transport event, the external stimuli that
drive `main.js`.  `connectClick` is the connect button: it disconnects
when connected and otherwise runs `connectToWebsocket`. -/
inductive Op
  | micToggle (startOk : Bool)
  | videoToggle (startOk : Bool)
  | stopVideoClick
  | screenToggle (startOk : Bool)
  | connectClick (connectOk : Bool)
  | sendClick
  | recvEvent (e : InboundEvent)
  | typeMessage (v : String)
  | typeApiKey (v : String)
deriving Repr

/-- Apply one stimulus to the state (dropping the emitted actions). -/
def applyOp (s : AppState) (op : Op) : AppState :=
  match op with
  | Op.micToggle ok => (handleMicToggle s ok).1
  | Op.videoToggle ok => (handleVideoToggle s ok).1
  | Op.stopVideoClick => (stopVideo s).1
  | Op.screenToggle ok => (handleScreenShare s ok).1
  | Op.connectClick ok =>
    if s.isConnected then (disconnectFromWebsocket s).1 else (connectToWebsocket s ok).1
  | Op.sendClick => (handleSendMessage s).1
  | Op.recvEvent e => (eventStep s e).1
  | Op.typeMessage v => { s with messageInput := v }
  | Op.typeApiKey v => { s with apiKeyInput := v }

/-- The state reached from module load after a sequence of stimuli. -/
def runOps (ops : List Op) : AppState :=
  ops.foldl applyOp initState

/-- Processing a list of inbound events only (the transport handlers),
from a given state. -/
def processEvents (s : AppState) (evs : List InboundEvent) : AppState :=
  evs.foldl (fun t e => (eventStep t e).1) s

/-- The events the spec calls relevant to `ToolUseFlag`: a `content`
event with a functionCall or functionResponse part, `interrupted`, and
`turn-complete`. -/
def relevantEvent : InboundEvent → Bool
  | InboundEvent.content (some parts) => hasFunctionCall parts || hasFunctionResponse parts
  | InboundEvent.content none => false
  | InboundEvent.interrupted => true
  | InboundEvent.turnComplete => true
  | InboundEvent.audio _ => false
  | InboundEvent.setupComplete => false
  | InboundEvent.openEvent => false
  | InboundEvent.closeEvent _ => false
  | InboundEvent.errorEvent _ => false

/-- Whether an event is a functionCall-content event (a `content` event
one of whose parts carries a functionCall). -/
def functionCallContent : InboundEvent → Bool
  | InboundEvent.content (some parts) => hasFunctionCall parts
  | _ => false

/-- The most recent relevant event of a sequence (the sequence is in
processing order, head first). -/
def lastRelevant : List InboundEvent → Option InboundEvent
  | [] => none
  | e :: rest =>
    match lastRelevant rest with
    | some x => some x
    | none => if relevantEvent e then some e else none

/-- After one event, `isUsingTool` is the functionCall-content status of
that event when it is relevant, and is otherwise unchanged. -/
theorem eventStep_isUsingTool (s : AppState) (e : InboundEvent) :
    (eventStep s e).1.isUsingTool =
      (if relevantEvent e then functionCallContent e else s.isUsingTool) := by
  cases e with
  | content mt =>
    cases mt with
    | none => simp [eventStep, contentHandler, relevantEvent, functionCallContent]
    | some parts =>
      by_cases h1 : hasFunctionCall parts = true <;>
        by_cases h2 : hasFunctionResponse parts = true <;>
        simp [eventStep, contentHandler, relevantEvent, functionCallContent, h1, h2]
  | interrupted => simp [eventStep, relevantEvent, functionCallContent]
  | turnComplete => simp [eventStep, relevantEvent, functionCallContent]
  | audio c =>
    cases h : s.audioStreamer <;>
      simp [eventStep, relevantEvent, functionCallContent, h]
  | setupComplete => simp [eventStep, relevantEvent, functionCallContent]
  | openEvent => simp [eventStep, relevantEvent, functionCallContent]
  | closeEvent c => simp [eventStep, relevantEvent, functionCallContent]
  | errorEvent m => simp [eventStep, relevantEvent, functionCallContent]

/-- After a sequence of events, `isUsingTool` is decided by the most
recent relevant event, falling back to the initial value. -/
theorem processEvents_isUsingTool (evs : List InboundEvent) (s : AppState) :
    (processEvents s evs).isUsingTool =
      ((lastRelevant evs).map functionCallContent).getD s.isUsingTool := by
  induction evs generalizing s with
  | nil => simp [processEvents, lastRelevant]
  | cons e rest ih =>
    have hstep := eventStep_isUsingTool s e
    have hstep2 :
        processEvents s (e :: rest) = processEvents (eventStep s e).1 rest := by
      simp [processEvents]
    rw [hstep2, ih]
    cases hlr : lastRelevant rest with
    | some x => simp [lastRelevant, hlr]
    | none =>
      cases hre : relevantEvent e <;>
        simp [lastRelevant, hlr, hre, hstep]

/-- Microphone invariant: before the streamer is ever created, no
recording is in progress and no recorder instance exists. -/
def MicInv (s : AppState) : Prop :=
  s.audioStreamer = none → (s.isRecording = false ∧ s.audioRecorder = none)

/-- Video invariant: while active, the live video producers are exactly
the one referenced by `videoManager`; while inactive, none are live. -/
def VidInv (s : AppState) : Prop :=
  (s.isVideoActive = true →
    s.liveVideo = s.videoManager.toList ∧ s.videoManager.isSome = true) ∧
  (s.isVideoActive = false → s.liveVideo = [])

/-- Screen invariant: while sharing, the live screen producers are
exactly the one referenced by `screenRecorder`; otherwise none are
live. -/
def ScrInv (s : AppState) : Prop :=
  (s.isScreenSharing = true →
    s.liveScreen = s.screenRecorder.toList ∧ s.screenRecorder.isSome = true) ∧
  (s.isScreenSharing = false → s.liveScreen = [])

/-- The state invariant maintained by every handler of `main.js`. -/
def StateInv (s : AppState) : Prop := MicInv s ∧ VidInv s ∧ ScrInv s

theorem stateInv_initState : StateInv initState := by
  constructor
  · intro _; exact ⟨rfl, rfl⟩
  constructor
  · exact ⟨fun h => by simp [initState] at h, fun _ => rfl⟩
  · exact ⟨fun h => by simp [initState] at h, fun _ => rfl⟩

/-- The teardown postcondition of `disconnectFromWebsocket`. -/
def disconnectPost (d : AppState) : Prop :=
  d.isConnected = false ∧ d.isRecording = false ∧ d.audioRecorder = none ∧
  (d.audioStreamer = none ∨ d.audioStreamer = some stoppedSink) ∧
  d.isVideoActive = false ∧ d.videoManager = none ∧ d.liveVideo = [] ∧
  d.isScreenSharing = false ∧ d.screenRecorder = none ∧ d.liveScreen = []

theorem disconnect_post_of_inv (s : AppState) (h : StateInv s) :
    disconnectPost (disconnectFromWebsocket s).1 := by
  obtain ⟨hm, ⟨hv1, hv2⟩, ⟨hs1, hs2⟩⟩ := h
  rw [disconnectFromWebsocket]
  cases hso : s.audioStreamer <;>
  cases hvm : s.videoManager <;>
  cases hsr : s.screenRecorder <;>
  cases hva : s.isVideoActive <;>
  cases hss : s.isScreenSharing <;>
    simp_all [disconnectPost, stopVideo, stopScreenSharing, stoppedSink, MicInv]



theorem stateInv_of_post (d : AppState) (h : disconnectPost d) : StateInv d := by
  obtain ⟨_, h2, h3, _, h5, _, h7, h8, _, h10⟩ := h
  refine ⟨fun _ => ⟨h2, h3⟩, ⟨fun hx => ?_, fun _ => h7⟩, ⟨fun hx => ?_, fun _ => h10⟩⟩
  · rw [h5] at hx; exact absurd hx (by simp)
  · rw [h8] at hx; exact absurd hx (by simp)

theorem stateInv_applyOp (s : AppState) (op : Op) (h : StateInv s) :
    StateInv (applyOp s op) := by
  obtain ⟨hm, ⟨hv1, hv2⟩, ⟨hs1, hs2⟩⟩ := h
  cases op with
  | micToggle ok =>
    cases hr : s.isRecording <;> cases ok <;>
      simp_all [applyOp, handleMicToggle, StateInv, MicInv, VidInv, ScrInv]
  | videoToggle ok =>
    cases hva : s.isVideoActive <;> cases ok <;>
      cases hvm : s.videoManager <;>
      simp_all [applyOp, handleVideoToggle, stopVideo, StateInv, MicInv, VidInv, ScrInv]
  | stopVideoClick =>
    cases hva : s.isVideoActive <;> cases hvm : s.videoManager <;>
      simp_all [applyOp, stopVideo, StateInv, MicInv, VidInv, ScrInv]
  | screenToggle ok =>
    cases hss : s.isScreenSharing <;> cases ok <;>
      cases hsr : s.screenRecorder <;>
      simp_all [applyOp, handleScreenShare, stopScreenSharing, StateInv, MicInv, VidInv, ScrInv]
  | connectClick ok =>
    by_cases hc : s.isConnected = true
    · have hpost := disconnect_post_of_inv s ⟨hm, ⟨hv1, hv2⟩, ⟨hs1, hs2⟩⟩
      simp only [applyOp, hc, if_pos rfl]
      simpa [hc] using stateInv_of_post _ hpost
    · by_cases hk : s.apiKeyInput = "" <;> cases ok <;>
        simp_all [applyOp, connectToWebsocket, StateInv, MicInv, VidInv, ScrInv]
  | sendClick =>
    by_cases hmsg : jsTrim s.messageInput = "" <;>
      simp_all [applyOp, handleSendMessage, StateInv, MicInv, VidInv, ScrInv]
  | recvEvent e =>
    cases e with
    | content mt =>
      cases mt with
      | none => simp_all [applyOp, eventStep, contentHandler, StateInv, MicInv, VidInv, ScrInv]
      | some parts =>
        by_cases h1 : hasFunctionCall parts = true <;>
          by_cases h2 : hasFunctionResponse parts = true <;>
          simp_all [applyOp, eventStep, contentHandler, StateInv, MicInv, VidInv, ScrInv]
    | interrupted =>
      cases hso : s.audioStreamer <;>
        simp_all [applyOp, eventStep, StateInv, MicInv, VidInv, ScrInv]
    | turnComplete => simp_all [applyOp, eventStep, StateInv, MicInv, VidInv, ScrInv]
    | audio c =>
      cases hso : s.audioStreamer <;>
        simp_all [applyOp, eventStep, StateInv, MicInv, VidInv, ScrInv]
    | setupComplete => simp_all [applyOp, eventStep, StateInv, MicInv, VidInv, ScrInv]
    | openEvent => simp_all [applyOp, eventStep, StateInv, MicInv, VidInv, ScrInv]
    | closeEvent c => simp_all [applyOp, eventStep, StateInv, MicInv, VidInv, ScrInv]
    | errorEvent m => simp_all [applyOp, eventStep, StateInv, MicInv, VidInv, ScrInv]
  | typeMessage v => simp_all [applyOp, StateInv, MicInv, VidInv, ScrInv]
  | typeApiKey v => simp_all [applyOp, StateInv, MicInv, VidInv, ScrInv]

theorem stateInv_runOps (ops : List Op) : StateInv (runOps ops) := by
  have gen : ∀ (l : List Op) (s : AppState), StateInv s → StateInv (l.foldl applyOp s) := by
    intro l
    induction l with
    | nil => intro s hs; simpa using hs
    | cons op rest ih =>
      intro s hs
      simpa using ih (applyOp s op) (stateInv_applyOp s op hs)
  exact gen _ _ stateInv_initState

theorem liveLen_le_one (t : AppState) (h : StateInv t) :
    t.liveVideo.length ≤ 1 ∧ t.liveScreen.length ≤ 1 := by
  obtain ⟨_, ⟨hv1, hv2⟩, ⟨hs1, hs2⟩⟩ := h
  constructor
  · cases hva : t.isVideoActive
    · simp [hv2 hva]
    · rw [(hv1 hva).1]; cases t.videoManager <;> simp
  · cases hss : t.isScreenSharing
    · simp [hs2 hss]
    · rw [(hs1 hss).1]; cases t.screenRecorder <;> simp

theorem videoToggle_liveCount (t : AppState) (h : StateInv t) :
    (applyOp t (Op.videoToggle true)).liveVideo.length =
      (if t.isVideoActive = true then 0 else 1) := by
  obtain ⟨_, ⟨hv1, hv2⟩, _⟩ := h
  cases hva : t.isVideoActive with
  | false => simp [applyOp, handleVideoToggle, hva, hv2 hva]
  | true =>
    obtain ⟨hl, hm⟩ := hv1 hva
    cases hvm : t.videoManager with
    | none => simp [hvm] at hm
    | some vid =>
      rw [hvm] at hl
      simp [applyOp, handleVideoToggle, stopVideo, hva, hvm, hl]

theorem screenToggle_liveCount (t : AppState) (h : StateInv t) :
    (applyOp t (Op.screenToggle true)).liveScreen.length =
      (if t.isScreenSharing = true then 0 else 1) := by
  obtain ⟨_, _, ⟨hs1, hs2⟩⟩ := h
  cases hss : t.isScreenSharing with
  | false => simp [applyOp, handleScreenShare, hss, hs2 hss]
  | true =>
    obtain ⟨hl, hm⟩ := hs1 hss
    cases hsr : t.screenRecorder with
    | none => simp [hsr] at hm
    | some sid =>
      rw [hsr] at hl
      simp [applyOp, handleScreenShare, stopScreenSharing, hss, hsr, hl]



/-- Parts list carrying both a functionCall part and a functionResponse
part, from the C1 counterexample. -/
def bothParts : List Part := [⟨none, true, false⟩, ⟨none, false, true⟩]

/-- C1 counterexample: on a `content` event whose parts contain both a
functionCall part and a functionResponse part, the handler leaves
`isUsingTool` set to `true`, not `false` — so the claimed rule "set
ToolUseFlag false if any part has a functionResponse" does not apply. -/
theorem claim1_counterexample :
    hasFunctionResponse bothParts = true ∧
    (eventStep initState (InboundEvent.content (some bothParts))).1.isUsingTool ≠ false := by
  decide

/-- C1 (amended): on a `content` event with a modelTurn, the handler sets
`isUsingTool` true when any part has a functionCall; only when no part
has a functionCall does a functionResponse part clear the flag; with
neither, the flag is unchanged. -/
theorem claim1_toolFlagPrecedence :
    ∀ (s : AppState) (parts : List Part),
      (hasFunctionCall parts = true →
        (eventStep s (InboundEvent.content (some parts))).1.isUsingTool = true) ∧
      (hasFunctionCall parts = false → hasFunctionResponse parts = true →
        (eventStep s (InboundEvent.content (some parts))).1.isUsingTool = false) ∧
      (hasFunctionCall parts = false → hasFunctionResponse parts = false →
        (eventStep s (InboundEvent.content (some parts))).1.isUsingTool = s.isUsingTool) := by
  intro s parts
  refine ⟨fun h1 => ?_, fun h1 h2 => ?_, fun h1 h2 => ?_⟩ <;>
    simp [eventStep, contentHandler, h1, *]

/-- C1 witness: a parts list with a functionCall sets the flag. -/
theorem claim1_witness :
    (eventStep initState (InboundEvent.content (some [⟨none, true, false⟩]))).1.isUsingTool = true :=
  (claim1_toolFlagPrecedence initState [⟨none, true, false⟩]).1 (by decide)

/-- C2: after any sequence of inbound events from the initial state,
`isUsingTool` is true iff the most recent relevant event (functionCall-
or functionResponse-content, interrupted, turn-complete) was a
functionCall-content event. -/
theorem claim2_toolUseFlagTracksEvents :
    ∀ evs : List InboundEvent,
      ((processEvents initState evs).isUsingTool = true ↔
        ∃ e, lastRelevant evs = some e ∧ functionCallContent e = true) := by
  intro evs
  rw [processEvents_isUsingTool]
  cases h : lastRelevant evs with
  | none => simp [initState]
  | some x => simp [h]



/-- C3: every microphone chunk is sent via `sendRealtimeInput` with mime
`audio/pcm;rate=16000` and carries `interrupt: true` exactly when
`isUsingTool` holds at the callback (no interrupt field otherwise), and
every screen frame the callback sends is tagged `image/jpeg`. -/
theorem claim3_realtimeChunkTagging :
    ∀ (s : AppState) (d : String),
      chunksSent (micCallbackActions s d) = [micChunk s.isUsingTool d] ∧
      (micChunk s.isUsingTool d).mimeType = "audio/pcm;rate=16000" ∧
      ((micChunk s.isUsingTool d).interrupt = some true ↔ s.isUsingTool = true) ∧
      (s.isUsingTool = false → (micChunk s.isUsingTool d).interrupt = none) ∧
      (∀ c ∈ chunksSent (screenCallbackActions s d), c.mimeType = "image/jpeg") := by
  intro s d
  cases ht : s.isUsingTool <;> cases hc : s.isConnected <;>
    simp [micCallbackActions, micChunk, screenCallbackActions, chunksSent, ht, hc]

/-- C3 witness: with the tool-use flag clear, the single sent microphone
chunk has no interrupt field. -/
theorem claim3_witness :
    (micChunk initState.isUsingTool "X").interrupt = none :=
  (claim3_realtimeChunkTagging initState "X").2.2.2.1 rfl

/-- C4: a `content` event with a modelTurn surfaces exactly one `"ai"`
text notification, equal to the in-order concatenation of the parts'
texts (absent texts contribute nothing), and none when the concatenation
is empty; parts `[{text:"A"}, {text:"B"}]` yield exactly `["AB"]`. -/
theorem claim4_textConcatenation :
    (∀ (s : AppState) (parts : List Part),
      aiNotifications (eventStep s (InboundEvent.content (some parts))).2 =
        (if joinTexts parts = "" then [] else [joinTexts parts])) ∧
    aiNotifications (eventStep initState (InboundEvent.content
      (some [⟨some "A", false, false⟩, ⟨some "B", false, false⟩]))).2 = ["AB"] := by
  constructor
  · intro s parts
    by_cases h1 : hasFunctionCall parts = true <;>
      by_cases h2 : hasFunctionResponse parts = true <;>
      by_cases h3 : joinTexts parts = "" <;>
      simp [eventStep, contentHandler, aiNotifications, h1, h2, h3]
  · decide



/-- C5 counterexample: while disconnected (`isConnected = false`), the
microphone callback still passes its chunk to `sendRealtimeInput` — the
chunk is not dropped. -/
theorem claim5_counterexample :
    initState.isConnected = false ∧
    micCallbackActions initState "X" ≠ [] ∧
    micCallbackActions initState "X" =
      [Action.sendRealtime
        [{ mimeType := "audio/pcm;rate=16000", data := "X", interrupt := none }]] := by
  decide

/-- C5 (amended): while `isConnected` is false, camera and screen frame
callbacks drop their chunks (and never attempt a connection); the
microphone callback, however, passes its chunk to the transport
unconditionally. -/
theorem claim5_disconnectedGuards :
    ∀ (s : AppState) (d : String) (frame : Chunk),
      s.isConnected = false →
      videoCallbackActions s frame = [] ∧
      screenCallbackActions s d = [] ∧
      Action.connectAttempt ∉ micCallbackActions s d ∧
      micCallbackActions s d = [Action.sendRealtime [micChunk s.isUsingTool d]] := by
  intro s d frame hc
  cases ht : s.isUsingTool <;>
    simp [videoCallbackActions, screenCallbackActions, micCallbackActions, micChunk, hc, ht]

/-- C5 witness: in the initial (disconnected) state the guards hold. -/
theorem claim5_witness :
    videoCallbackActions initState { mimeType := "image/jpeg", data := "f", interrupt := none } = [] ∧
    screenCallbackActions initState "f" = [] ∧
    Action.connectAttempt ∉ micCallbackActions initState "f" ∧
    micCallbackActions initState "f" = [Action.sendRealtime [micChunk initState.isUsingTool "f"]] :=
  claim5_disconnectedGuards initState "f"
    { mimeType := "image/jpeg", data := "f", interrupt := none } rfl

/-- C6 counterexample: connecting with an empty API key does not reject
with a `UserInputError`; the handler only surfaces a notification and
returns. -/
theorem claim6_counterexample :
    (connectToWebsocket initState true).2 = [Action.notify "Please input API Key" "system"] ∧
    Action.rejectError "UserInputError" ∉ (connectToWebsocket initState true).2 := by
  decide

/-- C6 (amended): with an empty API key, `connectToWebsocket` returns
synchronously with only the "Please input API Key" notification: no
connection attempt, no configuration persisted, and the state (including
`isConnected`) unchanged.  It does not reject with a typed error. -/
theorem claim6_emptyKeyNoConnect :
    ∀ (s : AppState) (ok : Bool),
      s.apiKeyInput = "" →
      connectToWebsocket s ok = (s, [Action.notify "Please input API Key" "system"]) := by
  intro s ok hk
  simp [connectToWebsocket, hk]

/-- C6 witness: the empty-key early return at the initial state. -/
theorem claim6_witness :
    connectToWebsocket initState true =
      (initState, [Action.notify "Please input API Key" "system"]) :=
  claim6_emptyKeyNoConnect initState true rfl

/-- C7: on an `interrupted` event the Playback Sink is stopped (its
buffered not-yet-played audio discarded, whenever a sink exists) and
`isUsingTool` becomes false regardless of its prior value. -/
theorem claim7_interruptedStopsSink :
    ∀ s : AppState,
      (eventStep s InboundEvent.interrupted).1.isUsingTool = false ∧
      (eventStep s InboundEvent.interrupted).1.audioStreamer =
        s.audioStreamer.map (fun _ => stoppedSink) ∧
      stoppedSink.queue = [] ∧ stoppedSink.playing = false := by
  intro s
  exact ⟨rfl, rfl, rfl, rfl⟩



/-- C8: after any sequence of stimuli at most one video producer and at
most one screen producer are live; a toggle that starts a producer
replaces rather than stacks: appending a successful toggle leaves exactly
one live producer of that kind when it was inactive (and zero when the
toggle stops an active one). -/
theorem claim8_singleLiveProducer :
    ∀ ops : List Op,
      (runOps ops).liveVideo.length ≤ 1 ∧
      (runOps ops).liveScreen.length ≤ 1 ∧
      (runOps (ops ++ [Op.videoToggle true])).liveVideo.length =
        (if (runOps ops).isVideoActive = true then 0 else 1) ∧
      (runOps (ops ++ [Op.screenToggle true])).liveScreen.length =
        (if (runOps ops).isScreenSharing = true then 0 else 1) := by
  intro ops
  have hInv := stateInv_runOps ops
  have happ : ∀ op : Op, runOps (ops ++ [op]) = applyOp (runOps ops) op := by
    intro op; simp [runOps, List.foldl_append]
  refine ⟨(liveLen_le_one _ hInv).1, (liveLen_le_one _ hInv).2, ?_, ?_⟩
  · rw [happ]; exact videoToggle_liveCount _ hInv
  · rw [happ]; exact screenToggle_liveCount _ hInv

/-- C9: from any reachable state, `disconnectFromWebsocket` tears the
session down: `isConnected` false, recording stopped and recorder
cleared (also when no Playback Sink was ever created), the sink halted
with its queue discarded when one exists, and any active video and
screen producers stopped. -/
theorem claim9_disconnectTeardown :
    ∀ ops : List Op, disconnectPost (disconnectFromWebsocket (runOps ops)).1 :=
  fun ops => disconnect_post_of_inv _ (stateInv_runOps ops)

/-- C10: `handleSendMessage` transmits iff the trimmed input is
non-empty; it then logs and sends exactly the trimmed text and clears
the field, and otherwise leaves the state untouched and emits nothing. -/
theorem claim10_sendMessageTrim :
    ∀ s : AppState,
      (jsTrim s.messageInput = "" → handleSendMessage s = (s, [])) ∧
      (jsTrim s.messageInput ≠ "" →
        handleSendMessage s =
          ({ s with messageInput := "" },
           [Action.notify (jsTrim s.messageInput) "user",
            Action.sendText (jsTrim s.messageInput)])) := by
  intro s
  refine ⟨fun h => ?_, fun h => ?_⟩ <;> simp [handleSendMessage, h]

/-- C10 witness: input `"  hi  "` sends the trimmed `"hi"` and clears
the field. -/
theorem claim10_witness :
    handleSendMessage { initState with messageInput := "  hi  " } =
      ({ initState with messageInput := "" },
       [Action.notify "hi" "user", Action.sendText "hi"]) := by
  rw [(claim10_sendMessageTrim { initState with messageInput := "  hi  " }).2 (by decide)]
  decide

end GeminiPlayground
